import Mathlib

/-!
Shallow embedding of `src/src/filesystem.c` (the rcutils filesystem module),
POSIX branch (`#ifndef _WIN32`).

Modelling conventions:
- A `const char *` argument or result is an `Option String` (`none` = NULL).
- `struct stat` is `StatBuf`, keeping only the fields the code reads:
  `S_ISDIR`, `S_ISREG`, `S_IRUSR`, `S_IWUSR`, `st_size`.
- The filesystem world `FS` is a finite association list from path to
  `StatBuf` (the result of `stat`) plus an association list from path to the
  `DirStream` that `opendir`/`readdir` would produce (`none` lookup = call
  fails).  `stat(NULL, ...)` fails (EFAULT), modelled by `cstat`.
- A `DIR *` enumeration is a `DirStream`: the list of entries `readdir`
  still has to yield, in native order (including `.` and `..`), followed by
  an end behaviour: `cleanEnd` (readdir returns NULL with errno 0) or
  `readError` (readdir returns NULL with errno non-zero).
- The allocator is `Allocator`: an identity `aid`, a validity flag
  (RCUTILS_CHECK_ALLOCATOR), and the outcomes of the two `zero_allocate`
  calls made by `rcutils_dir_iter_start`.
- Heap and native-handle state is `Resources`: which allocator id currently
  owns the iterator record and the state record (or `none` when not
  allocated), and whether the native `DIR` handle is open.  `deallocate`
  releases a record only when called through the allocator that produced
  it, so a balanced final state really certifies same-allocator release.
- Diagnostics (RCUTILS_SET_ERROR_MSG / the null-argument check macros) are
  counted; the functions return the number of diagnostics they record.
-/

/-- The fields of `struct stat` that `filesystem.c` reads. -/
structure StatBuf where
  st_isdir : Bool
  st_isreg : Bool
  st_irusr : Bool
  st_iwusr : Bool
  st_size : Nat
  deriving Repr, DecidableEq

/-- End behaviour of a `readdir` stream once its entries are exhausted:
`cleanEnd` models readdir returning NULL with `errno == 0`, `readError`
models readdir returning NULL with `errno != 0`. -/
inductive DirRead where
  | cleanEnd
  | readError
  deriving Repr, DecidableEq

/-- The state of one native `DIR *` enumeration: the entries still to be
yielded, in native order (`.` and `..` included, order unspecified), and
what happens after the last one. -/
structure DirStream where
  entries : List String
  after : DirRead
  deriving Repr, DecidableEq

/-- The filesystem world: what `stat` answers per path, and what `opendir`
hands out per path (`none` = the native call fails). -/
structure FS where
  statmap : List (String × StatBuf)
  dirmap : List (String × DirStream)
  deriving Repr, DecidableEq

/-- `stat(path, &buf)` on a non-null path. -/
def FS.fstat (fs : FS) (p : String) : Option StatBuf :=
  List.lookup p fs.statmap

/-- `opendir(path)` on a non-null path. -/
def FS.odir (fs : FS) (p : String) : Option DirStream :=
  List.lookup p fs.dirmap

/-- `stat` applied to a possibly-NULL `const char *`: a NULL pointer makes
the call fail (EFAULT), a non-null one consults the world. -/
def cstat (fs : FS) (p : Option String) : Option StatBuf :=
  match p with
  | none => none
  | some s => fs.fstat s

/-- `rcutils_is_directory`: one `stat`, false on failure, else `S_ISDIR`. -/
def rcutils_is_directory (fs : FS) (abs_path : Option String) : Bool :=
  match cstat fs abs_path with
  | none => false
  | some buf => buf.st_isdir

/-- `rcutils_is_file`: one `stat`, false on failure, else `S_ISREG`. -/
def rcutils_is_file (fs : FS) (abs_path : Option String) : Bool :=
  match cstat fs abs_path with
  | none => false
  | some buf => buf.st_isreg

/-- `rcutils_exists`: one `stat`, false on failure, true otherwise. -/
def rcutils_exists (fs : FS) (abs_path : Option String) : Bool :=
  match cstat fs abs_path with
  | none => false
  | some _ => true

/-- `rcutils_is_readable`: one `stat`, false on failure, else the
`S_IRUSR` bit. -/
def rcutils_is_readable (fs : FS) (abs_path : Option String) : Bool :=
  match cstat fs abs_path with
  | none => false
  | some buf => buf.st_irusr

/-- `rcutils_is_writable`: one `stat`, false on failure, else the
`S_IWUSR` bit. -/
def rcutils_is_writable (fs : FS) (abs_path : Option String) : Bool :=
  match cstat fs abs_path with
  | none => false
  | some buf => buf.st_iwusr

/-- `rcutils_is_readable_and_writable`: one `stat`, false on failure, else
`S_IWUSR && S_IRUSR`. -/
def rcutils_is_readable_and_writable (fs : FS) (abs_path : Option String) : Bool :=
  match cstat fs abs_path with
  | none => false
  | some buf => buf.st_iwusr && buf.st_irusr

/-- The POSIX value of `RCUTILS_PATH_DELIMITER`. -/
def RCUTILS_PATH_DELIMITER : String := "/"

/-- Modelled from the spec: `rcutils_format_string(allocator, "%s%s%s", a, b, c)`
(a string formatting helper of this repository whose source is not under
`src/`; the spec lists string formatting among out-of-scope collaborators
"assumed to provide" their service).  It produces the concatenation of its
three string arguments. -/
def rcutils_format_string_sss (a b c : String) : Option String :=
  some (a ++ b ++ c)

/-- `rcutils_join_path`: NULL when either input is NULL, otherwise
left ++ delimiter ++ right via `rcutils_format_string`. -/
def rcutils_join_path (left_hand_path right_hand_path : Option String) :
    Option String :=
  match left_hand_path with
  | none => none
  | some lp =>
    match right_hand_path with
    | none => none
    | some rp => rcutils_format_string_sss lp RCUTILS_PATH_DELIMITER rp

/-- An `rcutils_allocator_t` as the iterator code exercises it: an identity
`aid` distinguishing distinct allocators, the RCUTILS_CHECK_ALLOCATOR
validity flag, and the outcomes of the two `zero_allocate` calls that
`rcutils_dir_iter_start` makes (iterator record, then state record). -/
structure Allocator where
  aid : Nat
  valid : Bool
  ok1 : Bool
  ok2 : Bool
  deriving Repr, DecidableEq

/-- The heap and native-handle resources an iterator can hold: which
allocator id currently owns the `rcutils_dir_iter_t` record and the
`rcutils_dir_iter_state_t` record (`none` = not allocated), and whether the
native `DIR` handle is open. -/
structure Resources where
  iterLive : Option Nat
  stateLive : Option Nat
  dirLive : Bool
  deriving Repr, DecidableEq

/-- The resource state in which nothing is allocated and no handle is open. -/
def Resources.clear : Resources :=
  { iterLive := none, stateLive := none, dirLive := false }

/-- `allocator.deallocate(state, allocator.state)` applied to the state
record: it releases the record only when invoked through the allocator that
produced it (mixing allocators is undefined and modelled as a leak). -/
def deallocState (aid : Nat) (r : Resources) : Resources :=
  if r.stateLive = some aid then { r with stateLive := none } else r

/-- `allocator.deallocate(iter, allocator.state)` applied to the iterator
record, with the same same-allocator discipline as `deallocState`. -/
def deallocIter (aid : Nat) (r : Resources) : Resources :=
  if r.iterLive = some aid then { r with iterLive := none } else r

/-- `rcutils_dir_iter_state_t` (POSIX variant): just the `DIR * dir` field;
`none` models a NULL pointer (its zero-initialized value). -/
structure DirIterState where
  dir : Option DirStream
  deriving Repr, DecidableEq

/-- `rcutils_dir_iter_t`: the borrowed `entry_name` view (`none` = NULL),
the opaque `state` pointer (`none` = NULL), and the stored allocator,
represented by its id. -/
structure DirIter where
  entry_name : Option String
  state : Option DirIterState
  allocId : Nat
  deriving Repr, DecidableEq

/-- `rcutils_dir_iter_end`: no-op on NULL; otherwise, when the state record
is present, close the native handle (`closedir(state->dir)`; closing a NULL
`DIR *` has no handle to release) and deallocate the state record, then
deallocate the iterator record, both through `iter->allocator`. -/
def rcutils_dir_iter_end (iter : Option DirIter) (r : Resources) : Resources :=
  match iter with
  | none => r
  | some it =>
    let r1 :=
      match it.state with
      | none => r
      | some st =>
        let r0 :=
          match st.dir with
          | none => r
          | some _ => { r with dirLive := false }
        deallocState it.allocId r0
    deallocIter it.allocId r1

/-- `rcutils_dir_iter_start` (POSIX branch).  Returns the iterator (or NULL),
the resulting resource state, and the number of diagnostics recorded.  The
steps mirror the source: null-argument check, allocator check,
zero-allocate the iterator record, store the allocator, zero-allocate the
state record, `opendir`, then a first `readdir` whose entry (if any) is
materialized into `entry_name`; every failure after the first allocation
goes through `rcutils_dir_iter_end`. -/
def rcutils_dir_iter_start (directory_path : Option String)
    (allocator : Allocator) (fs : FS) (r : Resources) :
    Option DirIter × Resources × Nat :=
  match directory_path with
  | none => (none, r, 1)
  | some dpath =>
    if !allocator.valid then (none, r, 1)
    else if !allocator.ok1 then (none, r, 0)
    else
      let r1 : Resources := { r with iterLive := some allocator.aid }
      let iter0 : DirIter :=
        { entry_name := none, state := none, allocId := allocator.aid }
      if !allocator.ok2 then
        (none, rcutils_dir_iter_end (some iter0) r1, 0)
      else
        let r2 : Resources := { r1 with stateLive := some allocator.aid }
        let iter1 : DirIter := { iter0 with state := some { dir := none } }
        match fs.odir dpath with
        | none => (none, rcutils_dir_iter_end (some iter1) r2, 1)
        | some ds =>
          let r3 : Resources := { r2 with dirLive := true }
          match ds.entries with
          | e :: rest =>
            (some { iter1 with
                      entry_name := some e,
                      state := some { dir := some { entries := rest, after := ds.after } } },
              r3, 0)
          | [] =>
            let iter2 : DirIter := { iter1 with state := some { dir := some ds } }
            match ds.after with
            | DirRead.cleanEnd => (some iter2, r3, 0)
            | DirRead.readError => (none, rcutils_dir_iter_end (some iter2) r3, 1)

/-- `rcutils_dir_iter_next` (POSIX branch).  Returns the boolean result, the
updated iterator, and the number of diagnostics recorded.  NULL iterator and
NULL state are checked errors (each records one diagnostic); otherwise one
`readdir`: an entry sets `entry_name` and yields true, NULL — whether clean
exhaustion or read error, errno is never consulted — clears `entry_name`
and yields false, recording no diagnostic. -/
def rcutils_dir_iter_next (iter : Option DirIter) :
    Bool × Option DirIter × Nat :=
  match iter with
  | none => (false, none, 1)
  | some it =>
    match it.state with
    | none => (false, some it, 1)
    | some st =>
      match st.dir with
      | none => (false, some { it with entry_name := none }, 0)
      | some ds =>
        match ds.entries with
        | e :: rest =>
          (true,
            some { it with
                     entry_name := some e,
                     state := some { dir := some { entries := rest, after := ds.after } } },
            0)
        | [] => (false, some { it with entry_name := none }, 0)

/-- The entries the iterator's native stream has yet to yield (empty for a
NULL iterator, NULL state or NULL `DIR`). -/
def remainingEntries (iter : Option DirIter) : List String :=
  match iter with
  | none => []
  | some it =>
    match it.state with
    | none => []
    | some st =>
      match st.dir with
      | none => []
      | some ds => ds.entries

/-- The iterator after `k` further calls to `rcutils_dir_iter_next`. -/
def iterAfter : Nat → Option DirIter → Option DirIter
  | 0, oi => oi
  | Nat.succ k, oi => (rcutils_dir_iter_next (iterAfter k oi)).2.1

/-- Modelled from the spec: `rcutils_strdup` (string duplication helper of
this repository, not under `src/`; listed by the spec among external
collaborators).  Returns a duplicate of its input. -/
def rcutils_strdup (s : String) : Option String :=
  some s

/-- Modelled from the spec: `rcutils_get_home_dir` (the environment lookup
collaborator, not under `src/`, "used only to resolve a home directory").
The environment either resolves a home directory or does not. -/
structure Env where
  home : Option String
  deriving Repr, DecidableEq

/-- Modelled from the spec: `rcutils_format_string_limit(allocator, limit,
"%s%s", a, b)` (formatting helper of this repository, not under `src/`):
the concatenation of the two strings, truncated to at most `limit`
characters. -/
def rcutils_format_string_limit2 (limit : Nat) (a b : String) : Option String :=
  some (String.mk ((a.data ++ b.data).take limit))

/-- `rcutils_expand_user`: NULL on NULL input; a duplicate when the path
does not start with `'~'`; otherwise NULL when no home directory resolves,
else `format_string_limit(strlen(home)+strlen(path), "%s%s", home, path+1)`. -/
def rcutils_expand_user (env : Env) (path : Option String) : Option String :=
  match path with
  | none => none
  | some p =>
    if p.data.head? ≠ some '~' then rcutils_strdup p
    else
      match env.home with
      | none => none
      | some homedir =>
        rcutils_format_string_limit2 (homedir.length + p.length)
          homedir (String.mk p.data.tail)

/-- The POSIX `errno` values the mkdir model distinguishes. -/
def EEXIST : Nat := 17

/-- POSIX `errno` for a missing path component. -/
def ENOENT : Nat := 2

/-- POSIX `errno` for a non-directory path component. -/
def ENOTDIR : Nat := 20

/-- The parent path of `p` in the POSIX model: everything before the last
`/`, with the root written `/`. -/
def parentOf (p : String) : String :=
  let q := String.mk (((p.data.reverse.dropWhile (fun c => c ≠ '/')).drop 1).reverse)
  if q = "" then "/" else q

/-- The `StatBuf` of a directory freshly created with mode `0775`. -/
def mkdirStatBuf : StatBuf :=
  { st_isdir := true, st_isreg := false, st_irusr := true, st_iwusr := true,
    st_size := 0 }

/-- The native POSIX `mkdir(path, 0775)` call: `(return value, errno, new
world)`.  An existing path of any kind fails with `EEXIST`; otherwise the
directory is created when the parent is an existing directory, fails with
`ENOTDIR` when the parent exists but is not a directory, and fails with
`ENOENT` when the parent does not exist. -/
def mkdirNative (fs : FS) (p : String) : Int × Nat × FS :=
  match fs.fstat p with
  | some _ => (-1, EEXIST, fs)
  | none =>
    match fs.fstat (parentOf p) with
    | some buf =>
      if buf.st_isdir then
        (0, 0, { fs with statmap := (p, mkdirStatBuf) :: fs.statmap })
      else (-1, ENOTDIR, fs)
    | none => (-1, ENOENT, fs)

/-- `rcutils_mkdir` (POSIX branch): false on NULL, on the empty path and on
a path not starting with `/`; otherwise `mkdir(abs_path, 0775)`, counting
as success a zero return or `EEXIST` with the path being a directory. -/
def rcutils_mkdir (fs : FS) (abs_path : Option String) : Bool × FS :=
  match abs_path with
  | none => (false, fs)
  | some p =>
    match p.data with
    | [] => (false, fs)
    | c :: _ =>
      if c ≠ '/' then (false, fs)
      else
        let out := mkdirNative fs p
        (out.1 == 0 ||
          (out.2.1 == EEXIST && rcutils_is_directory out.2.2 (some p)),
          out.2.2)

/-- `rcutils_get_file_size`: 0 (with a diagnostic) unless the path is a
regular file, else a second `stat` and its `st_size` field (0 if that
`stat` fails). -/
def rcutils_get_file_size (fs : FS) (file_path : Option String) : Nat :=
  if !rcutils_is_file fs file_path then 0
  else
    match cstat fs file_path with
    | none => 0
    | some buf => buf.st_size

/-- One pass of the `do`-loop body of `rcutils_calculate_directory_size`.
The C body begins with `strcmp(iter->entry_name, ".")`: when `entry_name`
is NULL (the state `rcutils_dir_iter_start` leaves for a directory whose
first read cleanly yields nothing) that dereferences a NULL pointer —
undefined behavior, modelled as `none`.  A non-null entry other than `.`
and `..` contributes
`rcutils_get_file_size(rcutils_join_path(directory_path, entry_name))`;
`.` and `..` contribute nothing. -/
def calcBody (fs : FS) (directory_path : String) (e : Option String) :
    Option Nat :=
  match e with
  | none => none
  | some s =>
    if s ≠ "." ∧ s ≠ ".." then
      some (rcutils_get_file_size fs (rcutils_join_path (some directory_path) (some s)))
    else some 0

/-- The `do { ... } while (rcutils_dir_iter_next(iter))` loop: the body runs
on the current `entry_name`, then on each further entry the stream yields;
an undefined body run (`none`) makes the whole loop undefined. -/
def calcLoop (fs : FS) (directory_path : String) (e : Option String) :
    List String → Option Nat
  | [] => calcBody fs directory_path e
  | e2 :: rest =>
    match calcBody fs directory_path e with
    | none => none
    | some n =>
      match calcLoop fs directory_path (some e2) rest with
      | none => none
      | some m => some (n + m)

/-- `rcutils_calculate_directory_size`: 0 (with a diagnostic) unless the
path is a directory; 0 when the iterator fails to start; otherwise the
`do`-while accumulation over the started iterator's current entry and the
stream's remaining entries, then `rcutils_dir_iter_end`.  Returns the byte
total — `none` when the loop hits undefined behavior (NULL `entry_name`
passed to `strcmp`) — and the final resource state. -/
def rcutils_calculate_directory_size (fs : FS) (directory_path : Option String)
    (allocator : Allocator) (r : Resources) : Option Nat × Resources :=
  if !rcutils_is_directory fs directory_path then (some 0, r)
  else
    match directory_path with
    | none => (some 0, r)
    | some dpath =>
      let out := rcutils_dir_iter_start (some dpath) allocator fs r
      match out.1 with
      | none => (some 0, out.2.1)
      | some iter =>
        (calcLoop fs dpath iter.entry_name (remainingEntries (some iter)),
          rcutils_dir_iter_end (some iter) out.2.1)

/-- An exhausted (or invalid) iterator stays exhausted across one further
`rcutils_dir_iter_next` call, which returns false on it. -/
theorem remaining_nil_next (oi : Option DirIter) (h : remainingEntries oi = []) :
    (rcutils_dir_iter_next oi).1 = false ∧
    remainingEntries (rcutils_dir_iter_next oi).2.1 = [] := by
  cases oi with
  | none => simp [rcutils_dir_iter_next, remainingEntries]
  | some it =>
    cases hst : it.state with
    | none => simp [rcutils_dir_iter_next, hst, remainingEntries]
    | some st =>
      cases hd : st.dir with
      | none => simp [rcutils_dir_iter_next, hst, hd, remainingEntries]
      | some ds =>
        cases he : ds.entries with
        | nil => simp [rcutils_dir_iter_next, hst, hd, he, remainingEntries]
        | cons e rest =>
          simp [remainingEntries, hst, hd, he] at h

/-- An exhausted (or invalid) iterator keeps answering false to
`rcutils_dir_iter_next`, however many calls have gone before. -/
theorem remaining_nil_iterAfter (oi : Option DirIter)
    (h : remainingEntries oi = []) (k : Nat) :
    (rcutils_dir_iter_next (iterAfter k oi)).1 = false ∧
    remainingEntries (iterAfter k oi) = [] := by
  induction k with
  | zero => exact ⟨(remaining_nil_next oi h).1, h⟩
  | succ k ih =>
    have h2 := remaining_nil_next (iterAfter k oi) ih.2
    exact ⟨(remaining_nil_next _ h2.2).1, by simpa [iterAfter] using h2.2⟩

/-- C8: `rcutils_join_path` returns NULL exactly when one of its inputs is
NULL, and on non-null inputs returns the left path, then the single platform
path delimiter, then the right path, with no normalization. -/
theorem join_path_null_iff_and_concat :
    (∀ left_hand_path right_hand_path : Option String,
      rcutils_join_path left_hand_path right_hand_path = none ↔
        (left_hand_path = none ∨ right_hand_path = none)) ∧
    (∀ lp rp : String,
      rcutils_join_path (some lp) (some rp) =
        some (lp ++ RCUTILS_PATH_DELIMITER ++ rp)) := by
  constructor
  · intro l r
    cases l <;> cases r <;>
      simp [rcutils_join_path, rcutils_format_string_sss]
  · intro lp rp
    simp [rcutils_join_path, rcutils_format_string_sss, String.append_assoc]

/-- C8 witness: joining "a" and "b" gives "a/b". -/
theorem join_path_null_iff_and_concat_witness :
    rcutils_join_path (some "a") (some "b") =
      some ("a" ++ RCUTILS_PATH_DELIMITER ++ "b") :=
  join_path_null_iff_and_concat.2 "a" "b"

/-- C6: each of the six filesystem predicates is a function of the single
metadata fetch `cstat` alone (one fetch, nothing else observed), and when
that fetch fails — in particular on a nonexistent path — all six return
false rather than an error. -/
theorem predicates_single_fetch_and_total :
    (∀ (fs1 fs2 : FS) (p q : Option String), cstat fs1 p = cstat fs2 q →
      rcutils_exists fs1 p = rcutils_exists fs2 q ∧
      rcutils_is_directory fs1 p = rcutils_is_directory fs2 q ∧
      rcutils_is_file fs1 p = rcutils_is_file fs2 q ∧
      rcutils_is_readable fs1 p = rcutils_is_readable fs2 q ∧
      rcutils_is_writable fs1 p = rcutils_is_writable fs2 q ∧
      rcutils_is_readable_and_writable fs1 p = rcutils_is_readable_and_writable fs2 q) ∧
    (∀ (fs : FS) (p : Option String), cstat fs p = none →
      rcutils_exists fs p = false ∧
      rcutils_is_directory fs p = false ∧
      rcutils_is_file fs p = false ∧
      rcutils_is_readable fs p = false ∧
      rcutils_is_writable fs p = false ∧
      rcutils_is_readable_and_writable fs p = false) := by
  constructor
  · intro fs1 fs2 p q h
    refine ⟨?_, ?_, ?_, ?_, ?_, ?_⟩ <;>
      simp only [rcutils_exists, rcutils_is_directory, rcutils_is_file,
        rcutils_is_readable, rcutils_is_writable,
        rcutils_is_readable_and_writable, h]
  · intro fs p h
    refine ⟨?_, ?_, ?_, ?_, ?_, ?_⟩ <;>
      simp only [rcutils_exists, rcutils_is_directory, rcutils_is_file,
        rcutils_is_readable, rcutils_is_writable,
        rcutils_is_readable_and_writable, h]

/-- C6 witness: on a nonexistent path in an empty world, all six predicates
answer false. -/
theorem predicates_single_fetch_and_total_witness :
    rcutils_exists { statmap := [], dirmap := [] } (some "missing") = false ∧
    rcutils_is_directory { statmap := [], dirmap := [] } (some "missing") = false ∧
    rcutils_is_file { statmap := [], dirmap := [] } (some "missing") = false ∧
    rcutils_is_readable { statmap := [], dirmap := [] } (some "missing") = false ∧
    rcutils_is_writable { statmap := [], dirmap := [] } (some "missing") = false ∧
    rcutils_is_readable_and_writable { statmap := [], dirmap := [] } (some "missing") = false :=
  predicates_single_fetch_and_total.2 { statmap := [], dirmap := [] }
    (some "missing") rfl

/-- C10: `rcutils_dir_iter_next` on a NULL iterator, or on an iterator whose
internal state pointer is NULL, returns false as a checked error instead of
dereferencing the missing state. -/
theorem dir_iter_next_null_checked :
    (rcutils_dir_iter_next none).1 = false ∧
    (∀ it : DirIter, it.state = none →
      (rcutils_dir_iter_next (some it)).1 = false) := by
  refine ⟨rfl, ?_⟩
  intro it h
  simp [rcutils_dir_iter_next, h]

/-- C10 witness: a concrete iterator with a NULL state pointer makes
`rcutils_dir_iter_next` answer false. -/
theorem dir_iter_next_null_checked_witness :
    (rcutils_dir_iter_next
      (some { entry_name := none, state := none, allocId := 0 })).1 = false :=
  dir_iter_next_null_checked.2
    { entry_name := none, state := none, allocId := 0 } rfl

/-- C9: `rcutils_expand_user` duplicates a non-null path that does not begin
with `'~'`; on a path beginning with `'~'` it returns the resolved home
directory concatenated with the remainder of the path after the `'~'`, and
NULL when no home directory resolves. -/
theorem expand_user_spec :
    (∀ (env : Env) (p : String), p.data.head? ≠ some '~' →
      rcutils_expand_user env (some p) = some p) ∧
    (∀ (env : Env) (p : String) (rest : List Char) (homedir : String),
      p.data = '~' :: rest → env.home = some homedir →
      rcutils_expand_user env (some p) = some (String.mk (homedir.data ++ rest))) ∧
    (∀ (env : Env) (p : String) (rest : List Char),
      p.data = '~' :: rest → env.home = none →
      rcutils_expand_user env (some p) = none) := by
  refine ⟨?_, ?_, ?_⟩
  · intro env p h
    simp [rcutils_expand_user, h, rcutils_strdup]
  · intro env p rest homedir hp hh
    have hhead : p.data.head? = some '~' := by rw [hp]; rfl
    have htail : p.data.tail = rest := by rw [hp]; rfl
    have hlen : p.length = rest.length + 1 := by
      show p.data.length = rest.length + 1
      rw [hp]; rfl
    simp only [rcutils_expand_user, hhead, ne_eq, not_true_eq_false, if_false,
      hh, htail, rcutils_format_string_limit2, Option.some.injEq]
    have hle : (homedir.data ++ (String.mk rest).data).length ≤
        homedir.length + p.length := by
      show (homedir.data ++ rest).length ≤ homedir.length + p.length
      rw [List.length_append, hlen]
      show homedir.data.length + rest.length ≤ homedir.data.length + (rest.length + 1)
      omega
    rw [List.take_of_length_le hle]
  · intro env p rest hp hh
    have hhead : p.data.head? = some '~' := by rw [hp]; rfl
    simp [rcutils_expand_user, hhead, hh]

/-- C9 witness: with home `/home/u`, `~/x` expands to `/home/u/x`, and an
absolute path comes back unchanged. -/
theorem expand_user_spec_witness :
    rcutils_expand_user { home := some "/home/u" } (some "~/x") =
      some (String.mk ("/home/u".data ++ ['/', 'x'])) ∧
    rcutils_expand_user { home := some "/home/u" } (some "/abs/x") =
      some "/abs/x" :=
  ⟨expand_user_spec.2.1 { home := some "/home/u" } "~/x" ['/', 'x'] "/home/u"
      rfl rfl,
    expand_user_spec.1 { home := some "/home/u" } "/abs/x" (by decide)⟩

/-- C2: when `rcutils_dir_iter_start` succeeds, the returned iterator's
`entry_name` already holds the first entry the native enumeration produced
(the head of the stream `opendir` handed out); and when the directory opens
but the first `readdir` yields no entry and no error, start still returns a
non-null iterator whose `entry_name` is NULL. -/
theorem dir_iter_start_first_entry :
    (∀ (dpath : String) (a : Allocator) (fs : FS) (r : Resources)
        (it : DirIter) (ds : DirStream),
      (rcutils_dir_iter_start (some dpath) a fs r).1 = some it →
      fs.odir dpath = some ds →
      (∀ e rest, ds.entries = e :: rest → it.entry_name = some e) ∧
      (ds.entries = [] → it.entry_name = none)) ∧
    (∀ (dpath : String) (a : Allocator) (fs : FS) (r : Resources),
      a.valid = true → a.ok1 = true → a.ok2 = true →
      fs.odir dpath = some { entries := [], after := DirRead.cleanEnd } →
      ∃ it, (rcutils_dir_iter_start (some dpath) a fs r).1 = some it ∧
        it.entry_name = none) := by
  constructor
  · intro dpath a fs r it ds hit hds
    by_cases hv : a.valid
    · by_cases h1 : a.ok1
      · by_cases h2 : a.ok2
        · cases he : ds.entries with
          | nil =>
            cases ha : ds.after with
            | cleanEnd =>
              refine ⟨?_, ?_⟩
              · intro e rest hcons; simp at hcons
              · intro _
                simp only [rcutils_dir_iter_start, hv, h1, h2, hds, he, ha,
                  Bool.not_true, Bool.false_eq_true, if_false,
                  Option.some.injEq] at hit
                rw [← hit]
            | readError =>
              simp [rcutils_dir_iter_start, hv, h1, h2, hds, he, ha] at hit
          | cons e rest =>
            refine ⟨?_, ?_⟩
            · intro e2 rest2 hcons
              injection hcons with hx hy
              subst hx
              simp only [rcutils_dir_iter_start, hv, h1, h2, hds, he,
                Bool.not_true, Bool.false_eq_true, if_false,
                Option.some.injEq] at hit
              rw [← hit]
            · intro hnil; simp at hnil
        · simp [rcutils_dir_iter_start, hv, h1, h2] at hit
      · simp [rcutils_dir_iter_start, hv, h1] at hit
    · simp [rcutils_dir_iter_start, hv] at hit
  · intro dpath a fs r hv h1 h2 hds
    refine ⟨{ entry_name := none,
              state := some { dir := some { entries := [], after := DirRead.cleanEnd } },
              allocId := a.aid }, ?_, rfl⟩
    simp [rcutils_dir_iter_start, hv, h1, h2, hds]

/-- C2 witness: starting on a directory whose stream yields `.` first gives
an iterator already holding `.`; starting on one whose first read yields
nothing (cleanly) still succeeds, with `entry_name` NULL. -/
theorem dir_iter_start_first_entry_witness :
    (({ entry_name := some ".",
        state := some { dir := some { entries := ["f"], after := DirRead.cleanEnd } },
        allocId := 0 } : DirIter).entry_name = some ".") ∧
    (∃ it, (rcutils_dir_iter_start (some "e") { aid := 0, valid := true, ok1 := true, ok2 := true }
        { statmap := [], dirmap := [("e", { entries := [], after := DirRead.cleanEnd })] }
        Resources.clear).1 = some it ∧ it.entry_name = none) :=
  ⟨(dir_iter_start_first_entry.1 "d"
      { aid := 0, valid := true, ok1 := true, ok2 := true }
      { statmap := [], dirmap := [("d", { entries := [".", "f"], after := DirRead.cleanEnd })] }
      Resources.clear
      { entry_name := some ".",
        state := some { dir := some { entries := ["f"], after := DirRead.cleanEnd } },
        allocId := 0 }
      { entries := [".", "f"], after := DirRead.cleanEnd }
      rfl rfl).1 "." ["f"] rfl,
    dir_iter_start_first_entry.2 "e"
      { aid := 0, valid := true, ok1 := true, ok2 := true }
      { statmap := [], dirmap := [("e", { entries := [], after := DirRead.cleanEnd })] }
      Resources.clear rfl rfl rfl rfl⟩

/-- C3: on a live iterator, `rcutils_dir_iter_next` returns true and sets
`entry_name` to the next entry when the stream has one; when the stream is
exhausted it returns false with `entry_name` NULL, and it can then be called
again any number of times, always returning false. -/
theorem dir_iter_next_advances_and_exhausts :
    ∀ (it : DirIter) (st : DirIterState) (ds : DirStream),
      it.state = some st → st.dir = some ds →
      (∀ e rest, ds.entries = e :: rest →
        rcutils_dir_iter_next (some it) =
          (true,
            some { it with
                     entry_name := some e,
                     state := some { dir := some { entries := rest, after := ds.after } } },
            0)) ∧
      (ds.entries = [] →
        rcutils_dir_iter_next (some it) =
          (false, some { it with entry_name := none }, 0) ∧
        ∀ k, (rcutils_dir_iter_next (iterAfter k (some it))).1 = false) := by
  intro it st ds hst hd
  constructor
  · intro e rest he
    simp [rcutils_dir_iter_next, hst, hd, he]
  · intro he
    constructor
    · simp [rcutils_dir_iter_next, hst, hd, he]
    · intro k
      exact (remaining_nil_iterAfter (some it)
        (by simp [remainingEntries, hst, hd, he]) k).1

/-- C3 witness: with one entry left, next yields true and that entry; on an
exhausted iterator, next yields false with `entry_name` cleared, and still
false three calls later. -/
theorem dir_iter_next_advances_and_exhausts_witness :
    (rcutils_dir_iter_next
        (some { entry_name := some ".",
                state := some { dir := some { entries := ["f"], after := DirRead.cleanEnd } },
                allocId := 0 }) =
      (true,
        some { entry_name := some "f",
               state := some { dir := some { entries := [], after := DirRead.cleanEnd } },
               allocId := 0 },
        0)) ∧
    (rcutils_dir_iter_next
        (some { entry_name := some "f",
                state := some { dir := some { entries := [], after := DirRead.cleanEnd } },
                allocId := 0 }) =
      (false,
        some { entry_name := none,
               state := some { dir := some { entries := [], after := DirRead.cleanEnd } },
               allocId := 0 },
        0)) ∧
    (rcutils_dir_iter_next
        (iterAfter 3
          (some { entry_name := some "f",
                  state := some { dir := some { entries := [], after := DirRead.cleanEnd } },
                  allocId := 0 }))).1 = false :=
  ⟨(dir_iter_next_advances_and_exhausts
      { entry_name := some ".",
        state := some { dir := some { entries := ["f"], after := DirRead.cleanEnd } },
        allocId := 0 }
      { dir := some { entries := ["f"], after := DirRead.cleanEnd } }
      { entries := ["f"], after := DirRead.cleanEnd } rfl rfl).1 "f" [] rfl,
    ((dir_iter_next_advances_and_exhausts
      { entry_name := some "f",
        state := some { dir := some { entries := [], after := DirRead.cleanEnd } },
        allocId := 0 }
      { dir := some { entries := [], after := DirRead.cleanEnd } }
      { entries := [], after := DirRead.cleanEnd } rfl rfl).2 rfl).1,
    ((dir_iter_next_advances_and_exhausts
      { entry_name := some "f",
        state := some { dir := some { entries := [], after := DirRead.cleanEnd } },
        allocId := 0 }
      { dir := some { entries := [], after := DirRead.cleanEnd } }
      { entries := [], after := DirRead.cleanEnd } rfl rfl).2 rfl).2 3⟩

/-- C5 counterexample: on an iterator whose next native read fails,
`rcutils_dir_iter_next` records no diagnostic (the recorded-diagnostic
count is 0, not at least 1), while returning false; this falsifies the
claim that a diagnostic is recorded on a mid-iteration read error. -/
theorem next_read_error_records_no_diag_cex :
    (rcutils_dir_iter_next
        (some { entry_name := none,
                state := some { dir := some { entries := [], after := DirRead.readError } },
                allocId := 0 })).2.2 = 0 ∧
    ¬ 1 ≤ (rcutils_dir_iter_next
        (some { entry_name := none,
                state := some { dir := some { entries := [], after := DirRead.readError } },
                allocId := 0 })).2.2 ∧
    (rcutils_dir_iter_next
        (some { entry_name := none,
                state := some { dir := some { entries := [], after := DirRead.readError } },
                allocId := 0 })).1 = false := by
  refine ⟨rfl, by decide, rfl⟩

/-- C5 amended: a native read error in `rcutils_dir_iter_next` is presented
as exhaustion with no diagnostic recorded: the call returns false with
`entry_name` cleared and diagnostic count 0, giving the same boolean result
and the same diagnostic count as a clean end, so the caller cannot tell the
two apart. -/
theorem next_read_error_presents_as_exhaustion :
    ∀ (it itc : DirIter) (st stc : DirIterState),
      it.state = some st →
      st.dir = some { entries := [], after := DirRead.readError } →
      itc.state = some stc →
      stc.dir = some { entries := [], after := DirRead.cleanEnd } →
      rcutils_dir_iter_next (some it) =
        (false, some { it with entry_name := none }, 0) ∧
      (rcutils_dir_iter_next (some it)).1 =
        (rcutils_dir_iter_next (some itc)).1 ∧
      (rcutils_dir_iter_next (some it)).2.2 =
        (rcutils_dir_iter_next (some itc)).2.2 := by
  intro it itc st stc hst hd hstc hdc
  refine ⟨?_, ?_, ?_⟩ <;>
    simp [rcutils_dir_iter_next, hst, hd, hstc, hdc]

/-- C5 amended witness: a concrete erroring iterator next to a concrete
cleanly-exhausted one. -/
theorem next_read_error_presents_as_exhaustion_witness :
    rcutils_dir_iter_next
        (some { entry_name := none,
                state := some { dir := some { entries := [], after := DirRead.readError } },
                allocId := 0 }) =
      (false,
        some { entry_name := none,
               state := some { dir := some { entries := [], after := DirRead.readError } },
               allocId := 0 },
        0) :=
  (next_read_error_presents_as_exhaustion
    { entry_name := none,
      state := some { dir := some { entries := [], after := DirRead.readError } },
      allocId := 0 }
    { entry_name := none,
      state := some { dir := some { entries := [], after := DirRead.cleanEnd } },
      allocId := 0 }
    { dir := some { entries := [], after := DirRead.readError } }
    { dir := some { entries := [], after := DirRead.cleanEnd } }
    rfl rfl rfl rfl).1

/-- C4: whenever `rcutils_dir_iter_start` fails, run from a clear resource
state, it hands back a clear resource state: the iterator record, the state
record and the native handle have all been released (each record through
the allocator that produced it — releasing through another allocator would
leave it live in this model). -/
theorem dir_iter_start_failure_releases_all :
    ∀ (dp : Option String) (a : Allocator) (fs : FS),
      (rcutils_dir_iter_start dp a fs Resources.clear).1 = none →
      (rcutils_dir_iter_start dp a fs Resources.clear).2.1 = Resources.clear := by
  intro dp a fs hfail
  cases dp with
  | none => rfl
  | some dpath =>
    by_cases hv : a.valid
    · by_cases h1 : a.ok1
      · by_cases h2 : a.ok2
        · cases hds : fs.odir dpath with
          | none =>
            simp [rcutils_dir_iter_start, hv, h1, h2, hds,
              rcutils_dir_iter_end, deallocState, deallocIter, Resources.clear]
          | some ds =>
            cases he : ds.entries with
            | cons e rest =>
              simp [rcutils_dir_iter_start, hv, h1, h2, hds, he] at hfail
            | nil =>
              cases ha : ds.after with
              | cleanEnd =>
                simp [rcutils_dir_iter_start, hv, h1, h2, hds, he, ha] at hfail
              | readError =>
                simp [rcutils_dir_iter_start, hv, h1, h2, hds, he, ha,
                  rcutils_dir_iter_end, deallocState, deallocIter, Resources.clear]
        · simp [rcutils_dir_iter_start, hv, h1, h2,
            rcutils_dir_iter_end, deallocState, deallocIter, Resources.clear]
      · simp [rcutils_dir_iter_start, hv, h1]
    · simp [rcutils_dir_iter_start, hv]

/-- C4 witness: a start that fails because `opendir` fails (empty world)
leaves every resource released. -/
theorem dir_iter_start_failure_releases_all_witness :
    (rcutils_dir_iter_start (some "d") { aid := 0, valid := true, ok1 := true, ok2 := true }
        { statmap := [], dirmap := [] } Resources.clear).1 = none ∧
    (rcutils_dir_iter_start (some "d") { aid := 0, valid := true, ok1 := true, ok2 := true }
        { statmap := [], dirmap := [] } Resources.clear).2.1 = Resources.clear :=
  ⟨rfl,
    dir_iter_start_failure_releases_all (some "d")
      { aid := 0, valid := true, ok1 := true, ok2 := true }
      { statmap := [], dirmap := [] } rfl⟩

/-- C7 counterexample: in a world holding only the root directory, calling
`rcutils_mkdir("/a/b")` twice returns false both times (the native mkdir
fails with ENOENT because `/a` does not exist), so it is not the case that
every absolute path yields true on both of two successive calls. -/
theorem mkdir_twice_not_always_true_cex :
    (rcutils_mkdir
        { statmap := [("/", { st_isdir := true, st_isreg := false,
                              st_irusr := true, st_iwusr := true, st_size := 0 })],
          dirmap := [] } (some "/a/b")).1 = false ∧
    (rcutils_mkdir
        (rcutils_mkdir
          { statmap := [("/", { st_isdir := true, st_isreg := false,
                                st_irusr := true, st_iwusr := true, st_size := 0 })],
            dirmap := [] } (some "/a/b")).2 (some "/a/b")).1 = false := by
  decide

/-- C7 amended: `rcutils_mkdir` is idempotent on success — whenever a call
on a path returns true, immediately repeating it returns true again,
because "already exists as a directory" is treated as success — and on
every non-absolute path (one not starting with `/`, the empty path
included) it returns false and leaves the world unchanged. -/
theorem mkdir_idempotent_on_success :
    (∀ (fs : FS) (p : String),
      (rcutils_mkdir fs (some p)).1 = true →
      (rcutils_mkdir (rcutils_mkdir fs (some p)).2 (some p)).1 = true) ∧
    (∀ (fs : FS) (p : String), p.data.head? ≠ some '/' →
      rcutils_mkdir fs (some p) = (false, fs)) := by
  constructor
  · intro fs p h
    cases hpd : p.data with
    | nil => simp [rcutils_mkdir, hpd] at h
    | cons c cs =>
      by_cases hc : c = '/'
      · subst hc
        cases hp : fs.fstat p with
        | some b =>
          simp only [rcutils_mkdir, hpd, mkdirNative, hp, ne_eq,
            not_true_eq_false, if_false] at h ⊢
          simpa using h
        | none =>
          cases hpar : fs.fstat (parentOf p) with
          | none =>
            simp [rcutils_mkdir, hpd, mkdirNative, hp, hpar, EEXIST, ENOENT] at h
          | some buf =>
            by_cases hbd : buf.st_isdir
            · simp only [rcutils_mkdir, hpd, mkdirNative, hp, hpar, hbd,
                ne_eq, not_true_eq_false, if_false, if_true]
              simp [List.lookup, rcutils_is_directory, cstat, FS.fstat,
                mkdirStatBuf, EEXIST]
            · simp [rcutils_mkdir, hpd, mkdirNative, hp, hpar, hbd,
                EEXIST, ENOTDIR] at h
      · simp [rcutils_mkdir, hpd, hc] at h
  · intro fs p h
    cases hpd : p.data with
    | nil => simp [rcutils_mkdir, hpd]
    | cons c cs =>
      rw [hpd] at h
      simp only [List.head?, ne_eq, Option.some.injEq] at h
      simp [rcutils_mkdir, hpd, h]

/-- C7 amended witness: creating `/a` under an existing root succeeds, and
repeating the call succeeds again; a relative path is rejected without any
change to the world. -/
theorem mkdir_idempotent_on_success_witness :
    (rcutils_mkdir
        (rcutils_mkdir
          { statmap := [("/", { st_isdir := true, st_isreg := false,
                                st_irusr := true, st_iwusr := true, st_size := 0 })],
            dirmap := [] } (some "/a")).2 (some "/a")).1 = true ∧
    rcutils_mkdir
        { statmap := [("/", { st_isdir := true, st_isreg := false,
                              st_irusr := true, st_iwusr := true, st_size := 0 })],
          dirmap := [] } (some "rel") =
      (false,
        { statmap := [("/", { st_isdir := true, st_isreg := false,
                              st_irusr := true, st_iwusr := true, st_size := 0 })],
          dirmap := [] }) :=
  ⟨mkdir_idempotent_on_success.1
      { statmap := [("/", { st_isdir := true, st_isreg := false,
                            st_irusr := true, st_iwusr := true, st_size := 0 })],
        dirmap := [] } "/a" (by decide),
    mkdir_idempotent_on_success.2
      { statmap := [("/", { st_isdir := true, st_isreg := false,
                            st_irusr := true, st_iwusr := true, st_size := 0 })],
        dirmap := [] } "rel" (by decide)⟩

/-- The loop body on a non-null entry is defined, and is the entry's
filtered size contribution. -/
theorem calcBody_some (fs : FS) (d e : String) :
    calcBody fs d (some e) =
      some (if !(e == ".") && !(e == "..") then
        rcutils_get_file_size fs (rcutils_join_path (some d) (some e))
      else 0) := by
  by_cases h1 : e = "."
  · subst h1; simp [calcBody]
  · by_cases h2 : e = ".."
    · subst h2; simp [calcBody]
    · simp [calcBody, h1, h2]

/-- The `do`-while accumulation over a materialized (non-null) first entry
and the remaining stream is defined and equals the filtered sum of
per-entry file sizes. -/
theorem calcLoop_eq_filter_sum (fs : FS) (d : String) :
    ∀ (l : List String) (e : String),
      calcLoop fs d (some e) l =
        some ((((e :: l).filter (fun x => !(x == ".") && !(x == ".."))).map
            (fun x => rcutils_get_file_size fs (rcutils_join_path (some d) (some x)))).sum) := by
  intro l
  induction l with
  | nil =>
    intro e
    rw [show calcLoop fs d (some e) [] = calcBody fs d (some e) from rfl,
      calcBody_some]
    cases hc : (!(e == ".") && !(e == "..")) <;>
      simp [List.filter_cons, hc]
  | cons e2 rest ih =>
    intro e
    rw [show calcLoop fs d (some e) (e2 :: rest) =
        (match calcBody fs d (some e) with
          | none => none
          | some n =>
            match calcLoop fs d (some e2) rest with
            | none => none
            | some m => some (n + m)) from rfl,
      calcBody_some, ih e2]
    cases hc : (!(e == ".") && !(e == "..")) <;>
      simp [List.filter_cons, hc]

/-- C1: on a directory whose enumeration opens, yields at least one entry
(as native `readdir` always does, `.` first) and ends cleanly, with a
working allocator, `rcutils_calculate_directory_size` returns exactly the
sum of `rcutils_get_file_size` over every entry of the stream other than
`.` and `..`, each joined to the directory with the path delimiter — no
recursion into subdirectories, whose joined paths simply contribute their
`rcutils_get_file_size` of 0; and on every path that is not a directory it
returns 0.  The empty enumeration is excluded: there the loop body hands
the NULL `entry_name` to `strcmp`, which is undefined behavior (`none` in
this model), not a return value. -/
theorem calculate_directory_size_sums_direct_children :
    (∀ (fs : FS) (dpath : String) (a : Allocator) (e : String) (rest : List String),
      a.valid = true → a.ok1 = true → a.ok2 = true →
      rcutils_is_directory fs (some dpath) = true →
      fs.odir dpath = some { entries := e :: rest, after := DirRead.cleanEnd } →
      (rcutils_calculate_directory_size fs (some dpath) a Resources.clear).1 =
        some ((((e :: rest).filter (fun x => !(x == ".") && !(x == ".."))).map
            (fun x => rcutils_get_file_size fs (rcutils_join_path (some dpath) (some x)))).sum)) ∧
    (∀ (fs : FS) (p : Option String) (a : Allocator) (r : Resources),
      rcutils_is_directory fs p = false →
      (rcutils_calculate_directory_size fs p a r).1 = some 0) := by
  constructor
  · intro fs dpath a e rest hv h1 h2 hdir hds
    have hloop := calcLoop_eq_filter_sum fs dpath rest e
    simp only [rcutils_calculate_directory_size, hdir, Bool.not_true,
      Bool.false_eq_true, if_false, rcutils_dir_iter_start, hv, h1, h2,
      hds, remainingEntries]
    rw [hloop]
  · intro fs p a r h
    simp [rcutils_calculate_directory_size, h]

/-- C1 witness: a directory `d` with stream `.`, `..`, a 5-byte file `f` and
a subdirectory `sub` totals exactly `rcutils_get_file_size` of `d/f` plus
that of `d/sub`, which evaluates to 5. -/
theorem calculate_directory_size_sums_direct_children_witness :
    (rcutils_calculate_directory_size
        { statmap := [("d", { st_isdir := true, st_isreg := false,
                              st_irusr := true, st_iwusr := true, st_size := 0 }),
                      ("d/f", { st_isdir := false, st_isreg := true,
                                st_irusr := true, st_iwusr := true, st_size := 5 }),
                      ("d/sub", { st_isdir := true, st_isreg := false,
                                  st_irusr := true, st_iwusr := true, st_size := 0 })],
          dirmap := [("d", { entries := [".", "..", "f", "sub"], after := DirRead.cleanEnd })] }
        (some "d") { aid := 0, valid := true, ok1 := true, ok2 := true }
        Resources.clear).1 =
      some ((([".", "..", "f", "sub"].filter (fun x => !(x == ".") && !(x == ".."))).map
          (fun x => rcutils_get_file_size
            { statmap := [("d", { st_isdir := true, st_isreg := false,
                                  st_irusr := true, st_iwusr := true, st_size := 0 }),
                          ("d/f", { st_isdir := false, st_isreg := true,
                                    st_irusr := true, st_iwusr := true, st_size := 5 }),
                          ("d/sub", { st_isdir := true, st_isreg := false,
                                      st_irusr := true, st_iwusr := true, st_size := 0 })],
              dirmap := [("d", { entries := [".", "..", "f", "sub"], after := DirRead.cleanEnd })] }
            (rcutils_join_path (some "d") (some x)))).sum) ∧
    (([".", "..", "f", "sub"].filter (fun x => !(x == ".") && !(x == ".."))).map
          (fun x => rcutils_get_file_size
            { statmap := [("d", { st_isdir := true, st_isreg := false,
                                  st_irusr := true, st_iwusr := true, st_size := 0 }),
                          ("d/f", { st_isdir := false, st_isreg := true,
                                    st_irusr := true, st_iwusr := true, st_size := 5 }),
                          ("d/sub", { st_isdir := true, st_isreg := false,
                                      st_irusr := true, st_iwusr := true, st_size := 0 })],
              dirmap := [("d", { entries := [".", "..", "f", "sub"], after := DirRead.cleanEnd })] }
            (rcutils_join_path (some "d") (some x)))).sum = 5 :=
  ⟨calculate_directory_size_sums_direct_children.1
      { statmap := [("d", { st_isdir := true, st_isreg := false,
                            st_irusr := true, st_iwusr := true, st_size := 0 }),
                    ("d/f", { st_isdir := false, st_isreg := true,
                              st_irusr := true, st_iwusr := true, st_size := 5 }),
                    ("d/sub", { st_isdir := true, st_isreg := false,
                                st_irusr := true, st_iwusr := true, st_size := 0 })],
        dirmap := [("d", { entries := [".", "..", "f", "sub"], after := DirRead.cleanEnd })] }
      "d" { aid := 0, valid := true, ok1 := true, ok2 := true }
      "." ["..", "f", "sub"] rfl rfl rfl (by decide) rfl,
    by decide⟩
